import Mathlib

/-!
Verification of the BrainDash backend (src/main.py, src/schemas.py).

The Python source is shallowly embedded: strings are Lean `String`s,
Python `str.lower` becomes a character map, Python's substring test
`k in t` becomes `pyIn`, Python ints become `Int`, optional values become
`Option`, MongoDB documents become Lean structures with exactly the fields
of the pydantic schemas, and the in-place `list.sort(key=..., reverse=True)`
becomes a stable descending insertion sort on a key function.
The document-store helpers `create_document` / `get_documents` live in
`database.py`, which is not part of the sources; they are modelled from the
spec where a claim needs them (doc comments say so explicitly).
-/

/-- Model of Python `str.lower()` (the text handled here is ASCII). -/
def pyLower (s : String) : String := ⟨s.data.map Char.toLower⟩

/-- `listStartsWith t k`: the char list `k` is an initial segment of `t`. -/
def listStartsWith : List Char → List Char → Bool
  | _, [] => true
  | [], _ :: _ => false
  | c :: cs, k :: ks => c == k && listStartsWith cs ks

/-- `listContainsSub t k`: the char list `k` occurs contiguously in `t`. -/
def listContainsSub : List Char → List Char → Bool
  | [], k => k.isEmpty
  | t@(_ :: rest), k => listStartsWith t k || listContainsSub rest k

/-- Model of Python's substring test `k in t`. -/
def pyIn (k t : String) : Bool := listContainsSub t.data k.data

/-- Model of Python `any(k in t for k in ks)`. -/
def anyIn (ks : List String) (t : String) : Bool := ks.any (fun k => pyIn k t)

/-- Model of Python string slicing `s[:n]`. -/
def strTake (n : Nat) (s : String) : String := ⟨s.data.take n⟩

/-! ### The heuristic categorizer (src/main.py lines 65-96) -/

/-- Keyword list of the `admin` category rule (main.py line 71). -/
def adminKeys : List String := ["email", "invoice", "schedule", "book", "call"]

/-- Keyword list of the `deep` category rule (main.py line 72). -/
def deepKeys : List String := ["write", "design", "analy", "plan"]

/-- Keyword list of the `creative` category rule (main.py line 73). -/
def creativeKeys : List String := ["brainstorm", "sketch", "compose"]

/-- Keyword list of the `social` category rule (main.py line 74). -/
def socialKeys : List String := ["meet", "coffee", "chat"]

/-- Keywords giving urgency 3 (main.py line 77). -/
def urgentKeys : List String := ["today", "urgent", "asap", "now"]

/-- Keywords giving energy requirement `high` (main.py line 78). -/
def highEnergyKeys : List String := ["write", "design", "clean", "gym"]

/-- Keywords giving energy requirement `low` (main.py line 78). -/
def lowEnergyKeys : List String := ["email", "sort", "file"]

/-- The category if-chain over the lower-cased text `t` (main.py lines 70-76). -/
def categoryOf (t : String) : String :=
  if anyIn adminKeys t then "admin"
  else if anyIn deepKeys t then "deep"
  else if anyIn creativeKeys t then "creative"
  else if anyIn socialKeys t then "social"
  else "other"

/-- The urgency computation over the lower-cased text `t` (main.py line 77). -/
def urgencyOf (t : String) : Int :=
  if anyIn urgentKeys t then 3 else if pyIn "tomorrow" t then 2 else 1

/-- The energy-requirement computation over the lower-cased text `t` (main.py line 78). -/
def energyReqOf (t : String) : String :=
  if anyIn highEnergyKeys t then "high"
  else if anyIn lowEnergyKeys t then "low"
  else "medium"

/-- The unclamped priority score (main.py lines 79-81): base 50, urgency bonus,
then +10 when the caller's energy is truthy (non-None and non-empty, Python's
`if energy`) and equals the computed requirement. -/
def baseScore (t : String) (energy : Option String) : Int :=
  let base : Int :=
    50 + (if urgencyOf t = 3 then 10 else 0) + (if urgencyOf t = 2 then 5 else 0)
  match energy with
  | some e => if e ≠ "" ∧ energyReqOf t = e then base + 10 else base
  | none => base

/-- The fixed tips list (main.py lines 83-87). -/
def fixedTips : List String :=
  ["Break it into a 10-minute starter step.",
   "Set a 20-minute timer and start.",
   "Pair it with music that matches your energy."]

/-- The due hint (main.py line 88). -/
def dueOf (t : String) : Option String :=
  if pyIn "today" t then some "today"
  else if pyIn "tomorrow" t then some "tomorrow"
  else none

/-- The annotation dict returned by the heuristic (main.py lines 89-96). -/
structure Annot where
  category : String
  urgency : Int
  energy : String
  priority : Int
  tips : List String
  due : Option String
deriving DecidableEq, Repr

/-- `call_gemini_categorize` (main.py lines 65-96) on the heuristic path, i.e.
with no `GEMINI_API_KEY` configured. `mood` is accepted and ignored exactly as
in the source. The key-present path (line 98) raises instead of returning and
is modelled as an `Except.error` outcome where a claim needs it. -/
def call_gemini_categorize (text : String) (_mood energy : Option String) : Annot :=
  let t := pyLower text
  { category := categoryOf t
    urgency := urgencyOf t
    energy := energyReqOf t
    priority := max 0 (min 100 (baseScore t energy))
    tips := fixedTips
    due := dueOf t }

/-! ### Stable descending sort, the model of `docs.sort(key=..., reverse=True)` -/

/-- Insert `x` into a list sorted descending by key `k`, before the first
strictly smaller key (so an element keeps its place ahead of later elements
with an equal key, matching Python's stable sort). -/
def insertByKeyDesc {α : Type} (k : α → Int) (x : α) : List α → List α
  | [] => [x]
  | y :: ys => if k y ≤ k x then x :: y :: ys else y :: insertByKeyDesc k x ys

/-- Stable insertion sort, descending by key `k`: the model of Python
`docs.sort(key=..., reverse=True)`. -/
def sortByKeyDesc {α : Type} (k : α → Int) : List α → List α
  | [] => []
  | x :: xs => insertByKeyDesc k x (sortByKeyDesc k xs)

/-! ### Task records and the task endpoints (src/main.py lines 102-137) -/

/-- The `Task` pydantic schema (src/schemas.py lines 22-36): the exact field
set of a stored `task` document. -/
structure TaskRec where
  text : String
  category : Option String
  energy : Option String
  urgency : Option Int
  priority : Option Int
  due : Option String
  tips : List String
  mood : Option String
  user_energy : Option String
  completed : Bool
deriving DecidableEq, Repr

/-- The `TaskInput` request model (main.py lines 23-26). -/
structure TaskInput where
  text : String
  mood : Option String
  energy : Option String
deriving DecidableEq, Repr

/-- Modelled from the spec: `get_documents("task", filter_dict)` from
`database.py`, which is not under src/. Spec §4.2: "query returns all records
optionally filtered by exact-match on `energy`, with no additional server-side
computation". The only filter `list_tasks` builds is on the `energy` field, so
the filter dict is modelled as `Option String`. -/
def get_documents_task (store : List TaskRec) (filterEnergy : Option String) : List TaskRec :=
  match filterEnergy with
  | none => store
  | some e => store.filter (fun d => d.energy == some e)

/-- The sort key `x.get("priority", 0)` of `list_tasks` (main.py line 136):
absent priority counts as 0. -/
def taskSortKey (d : TaskRec) : Int := d.priority.getD 0

/-- `list_tasks` (main.py lines 124-137). The filter dict gains an `energy`
entry only when the query parameter is truthy (`if energy:` — Python treats
an empty string like None); the result is sorted by priority descending. The
`_id`-to-`id` serialization step does not alter which records appear and is
not modelled. -/
def list_tasks (store : List TaskRec) (energy : Option String) : List TaskRec :=
  let filterDict : Option String :=
    match energy with
    | some e => if e ≠ "" then some e else none
    | none => none
  sortByKeyDesc taskSortKey (get_documents_task store filterDict)

/-- The `Task(...)` document built by `create_task` (main.py lines 110-120). -/
def taskDocOf (inp : TaskInput) (ai : Annot) : TaskRec :=
  { text := inp.text
    category := some ai.category
    energy := some ai.energy
    urgency := some ai.urgency
    priority := some ai.priority
    due := ai.due
    tips := ai.tips
    mood := inp.mood
    user_energy := inp.energy
    completed := false }

/-- `create_task` (main.py lines 102-122). The categorizer call's outcome is
passed in explicitly: `Except.error e` stands for `call_gemini_categorize`
raising an exception with text `e` (as the key-present stub at line 98 does),
`Except.ok ai` for a normal return. On an exception the handler raises
HTTP 500 with detail `"AI error: " + str(e)[:100]` before any store write;
on success the document is appended to the store (spec §4.2: append-only
create) and returned. The result pairs the new store state with either the
error detail or the created record. -/
def create_task (store : List TaskRec) (inp : TaskInput) (cat : Except String Annot) :
    List TaskRec × Except String TaskRec :=
  match cat with
  | .error e => (store, .error ("AI error: " ++ strTake 100 e))
  | .ok ai => (store ++ [taskDocOf inp ai], .ok (taskDocOf inp ai))

/-- The records the C8 claim says `list_tasks` selects, restated with the
empty-string parameter handled like an absent one (the amendment): exact-match
filter on `energy` for a non-empty parameter, all records otherwise. -/
def selectedTasks (store : List TaskRec) (energy : Option String) : List TaskRec :=
  match energy with
  | some e => if e ≠ "" then store.filter (fun d => d.energy == some e) else store
  | none => store

/-! ### Mood records and the mood endpoints (src/main.py lines 139-152) -/

/-- The `MoodLog` pydantic schema (src/schemas.py lines 38-46): the exact
field set of a stored `moodlog` document. The `datetime` timestamp is
modelled as an `Int` (epoch time). -/
structure MoodRec where
  mood : String
  energy : String
  notes : Option String
  recorded_at : Option Int
deriving DecidableEq, Repr

/-- The `MoodInput` request model (main.py lines 28-31). -/
structure MoodInput where
  mood : String
  energy : String
  notes : Option String
deriving DecidableEq, Repr

/-- Modelled from the spec: `create_document("moodlog", data)` from
`database.py`, which is not under src/. Spec §3: "recorded_at: timestamp, set
at insertion time"; §4.3: "append-only create of mood logs with a
server-assigned creation timestamp". `now` is the server clock at insertion. -/
def create_document_moodlog (now : Int) (m : MoodInput) : MoodRec :=
  { mood := m.mood, energy := m.energy, notes := m.notes, recorded_at := some now }

/-- `log_mood` (main.py lines 139-143): builds the `MoodLog` document and
inserts it (append-only, timestamp server-assigned at insertion time `now`).
Returns the new store state and the inserted record. -/
def log_mood (store : List MoodRec) (now : Int) (inp : MoodInput) :
    List MoodRec × MoodRec :=
  (store ++ [create_document_moodlog now inp], create_document_moodlog now inp)

/-- The sort key `x.get("created_at", 0)` of `list_mood` (main.py line 151).
A `moodlog` document has exactly the fields `mood`, `energy`, `notes`,
`recorded_at` (src/schemas.py lines 38-46 and spec §3) — there is no
`created_at` field — so the dict lookup always misses and yields the
default 0, for every record. -/
def moodSortKey (_d : MoodRec) : Int := 0

/-- `list_mood` (main.py lines 145-152): fetches all `moodlog` documents
(`get_documents("moodlog", {})`, modelled from the spec as returning the whole
collection in insertion order) and sorts them descending by
`x.get("created_at", 0)`. -/
def list_mood (store : List MoodRec) : List MoodRec :=
  sortByKeyDesc moodSortKey store

/-- A `moodlog` document inserted first, with the earlier timestamp 1. -/
def m1 : MoodRec := { mood := "tired", energy := "low", notes := none, recorded_at := some 1 }

/-- A `moodlog` document inserted second, with the later timestamp 2. -/
def m2 : MoodRec := { mood := "happy", energy := "high", notes := none, recorded_at := some 2 }

/-- A stored task document whose `energy` is `"medium"`, used to probe the
empty-string energy filter of `list_tasks`. -/
def r0 : TaskRec :=
  { text := "pay invoice", category := some "admin", energy := some "medium",
    urgency := some 1, priority := some 50, due := none, tips := [],
    mood := none, user_energy := none, completed := false }

/-! ## Lemmas about the stable descending sort -/

theorem insertByKeyDesc_perm {α : Type} (k : α → Int) (x : α) (l : List α) :
    List.Perm (insertByKeyDesc k x l) (x :: l) := by
  induction l with
  | nil => exact List.Perm.refl _
  | cons y ys ih =>
    unfold insertByKeyDesc
    split
    · exact List.Perm.refl _
    · exact (ih.cons y).trans (List.Perm.swap x y ys)

theorem sortByKeyDesc_perm {α : Type} (k : α → Int) (l : List α) :
    List.Perm (sortByKeyDesc k l) l := by
  induction l with
  | nil => exact List.Perm.refl _
  | cons x xs ih => exact (insertByKeyDesc_perm k x _).trans (ih.cons x)

theorem mem_insertByKeyDesc {α : Type} (k : α → Int) (x a : α) (l : List α) :
    a ∈ insertByKeyDesc k x l ↔ a = x ∨ a ∈ l := by
  rw [(insertByKeyDesc_perm k x l).mem_iff, List.mem_cons]

theorem pairwise_insertByKeyDesc {α : Type} (k : α → Int) (x : α) (l : List α)
    (h : List.Pairwise (fun a b => k b ≤ k a) l) :
    List.Pairwise (fun a b => k b ≤ k a) (insertByKeyDesc k x l) := by
  induction l with
  | nil => simp [insertByKeyDesc]
  | cons y ys ih =>
    rcases List.pairwise_cons.mp h with ⟨hy, hys⟩
    unfold insertByKeyDesc
    split
    case isTrue hle =>
      refine List.pairwise_cons.mpr ⟨?_, h⟩
      intro z hz
      rcases List.mem_cons.mp hz with rfl | hz
      · exact hle
      · exact (hy z hz).trans hle
    case isFalse hgt =>
      refine List.pairwise_cons.mpr ⟨?_, ih hys⟩
      intro z hz
      rcases (mem_insertByKeyDesc k x z ys).mp hz with rfl | hz
      · exact le_of_lt (lt_of_not_le hgt)
      · exact hy z hz

theorem sortByKeyDesc_pairwise {α : Type} (k : α → Int) (l : List α) :
    List.Pairwise (fun a b => k b ≤ k a) (sortByKeyDesc k l) := by
  induction l with
  | nil => exact List.Pairwise.nil
  | cons x xs ih => exact pairwise_insertByKeyDesc k x _ ih

/-! ## Lemmas about substring search in whitespace-only text -/

theorem ws_toLower (c : Char) (h : c.isWhitespace = true) :
    (Char.toLower c).isWhitespace = true := by
  simp [Char.isWhitespace] at h
  rcases h with ((h | h) | h) | h <;> subst h <;> decide

theorem listContainsSub_ws_false {t : List Char} {hd : Char} {tl : List Char}
    (hws : ∀ c ∈ t, c.isWhitespace = true) (hhd : hd.isWhitespace = false) :
    listContainsSub t (hd :: tl) = false := by
  induction t with
  | nil => rfl
  | cons c cs ih =>
    have hc : c.isWhitespace = true := hws c (List.mem_cons_self c cs)
    have hne : (c == hd) = false := by
      cases hbe : c == hd
      · rfl
      · exfalso
        have hchd : c = hd := beq_iff_eq.mp hbe
        subst hchd
        rw [hc] at hhd
        exact Bool.noConfusion hhd
    have hrest := ih (fun d hd2 => hws d (List.mem_cons_of_mem c hd2))
    simp [listContainsSub, listStartsWith, hne, hrest]

theorem pyIn_ws_false (k t : String) (hws : ∀ c ∈ t.data, c.isWhitespace = true)
    (hk : k.data.head?.map Char.isWhitespace = some false) : pyIn k t = false := by
  unfold pyIn
  cases hkd : k.data with
  | nil => rw [hkd] at hk; simp at hk
  | cons hd tl =>
    rw [hkd] at hk
    simp at hk
    exact listContainsSub_ws_false hws hk

theorem anyIn_ws_false (ks : List String) (t : String)
    (hws : ∀ c ∈ t.data, c.isWhitespace = true)
    (hks : ∀ k ∈ ks, k.data.head?.map Char.isWhitespace = some false) :
    anyIn ks t = false := by
  unfold anyIn
  simp only [List.any_eq_false]
  intro k hk
  simp [pyIn_ws_false k t hws (hks k hk)]

theorem pyLower_ws (s : String) (h : ∀ c ∈ s.data, c.isWhitespace = true) :
    ∀ c ∈ (pyLower s).data, c.isWhitespace = true := by
  intro c hc
  rcases List.mem_map.mp hc with ⟨d, hd, rfl⟩
  exact ws_toLower d (h d hd)

/-! ## Lemmas about the priority computation -/

theorem urgencyOf_cases (t : String) : urgencyOf t = 3 ∨ urgencyOf t = 2 ∨ urgencyOf t = 1 := by
  unfold urgencyOf
  split_ifs <;> simp

theorem baseScore_some_split (t s : String) :
    baseScore t (some s) =
      if s ≠ "" ∧ energyReqOf t = s then baseScore t none + 10 else baseScore t none := rfl

theorem baseScore_none_bounds (t : String) :
    50 ≤ baseScore t none ∧ baseScore t none ≤ 60 := by
  unfold baseScore
  rcases urgencyOf_cases t with h | h | h <;> simp [h]

theorem energyReq_ne_empty (t : String) : energyReqOf t ≠ "" := by
  unfold energyReqOf
  split_ifs <;> decide

theorem baseScore_bounds (t : String) (e : Option String) :
    50 ≤ baseScore t e ∧ baseScore t e ≤ 70 := by
  obtain ⟨h1, h2⟩ := baseScore_none_bounds t
  rcases e with _ | s
  · exact ⟨h1, by omega⟩
  · rw [baseScore_some_split]
    split_ifs <;> omega

theorem clamp_id (b : Int) (h1 : 0 ≤ b) (h2 : b ≤ 100) : max 0 (min 100 b) = b := by
  rw [min_eq_right h2, max_eq_right h1]

theorem priority_proj (text : String) (mood energy : Option String) :
    (call_gemini_categorize text mood energy).priority
      = max 0 (min 100 (baseScore (pyLower text) energy)) := rfl

/-! ## The claims -/

/-- Claim C1 (code bug): `GET /api/mood` is supposed to return mood records
sorted by `recorded_at` descending, newest first. It does not: the sort in
`list_mood` (main.py line 151) keys on `created_at`, a field no `moodlog`
document carries (the schema field is `recorded_at`, src/schemas.py line 46),
so every sort key is the default 0 and the stable sort returns the records in
insertion order. With two records timestamped 1 and 2 in insertion order, the
endpoint yields `[m1, m2]` (oldest first) instead of the claimed `[m2, m1]`. -/
theorem mood_list_sort_ignores_recorded_at :
    m1.recorded_at = some 1 ∧ m2.recorded_at = some 2 ∧
    list_mood [m1, m2] = [m1, m2] ∧ list_mood [m1, m2] ≠ [m2, m1] := by decide

/-- Claim C2: `POST /api/mood` stores a `MoodLog` record whose `recorded_at`
holds the server-assigned insertion-time timestamp — the stored record's
`recorded_at` is never absent. (`create_document` is modelled from the spec,
see `create_document_moodlog`.) -/
theorem log_mood_assigns_recorded_at (store : List MoodRec) (now : Int) (inp : MoodInput) :
    (log_mood store now inp).1 = store ++ [(log_mood store now inp).2] ∧
    ((log_mood store now inp).2).recorded_at = some now := ⟨rfl, rfl⟩

/-- Claim C3: for every text and every optional self-reported energy, the
heuristic categorizer's priority score lies in the closed interval [0, 100]. -/
theorem heuristic_priority_in_0_100 (text : String) (mood energy : Option String) :
    0 ≤ (call_gemini_categorize text mood energy).priority ∧
    (call_gemini_categorize text mood energy).priority ≤ 100 := by
  rw [priority_proj]
  exact ⟨le_max_left _ _, max_le (by norm_num) (min_le_left _ _)⟩

/-- Claim C4: whenever the supplied self-reported energy equals the computed
energy requirement, the priority score is strictly greater than that of the
otherwise-identical call with no self-reported energy (the clamp ceiling is
never reached, so the strict inequality always holds). -/
theorem energy_match_strictly_raises_priority (text : String) (mood : Option String)
    (e : String) (h : energyReqOf (pyLower text) = e) :
    (call_gemini_categorize text mood (some e)).priority >
      (call_gemini_categorize text mood none).priority := by
  have hne : e ≠ "" := fun he => energyReq_ne_empty (pyLower text) (h.trans he)
  obtain ⟨h1, h2⟩ := baseScore_none_bounds (pyLower text)
  have hbs : baseScore (pyLower text) (some e) = baseScore (pyLower text) none + 10 := by
    rw [baseScore_some_split, if_pos ⟨hne, h⟩]
  rw [priority_proj, priority_proj, hbs, clamp_id _ (by omega) (by omega),
    clamp_id _ (by omega) (by omega)]
  omega

/-- Witness for C4: on "Send the email" the computed energy requirement is
"low", and supplying energy "low" yields a strictly higher priority. -/
theorem energy_match_strictly_raises_priority_witness :
    energyReqOf (pyLower "Send the email") = "low" ∧
    (call_gemini_categorize "Send the email" none (some "low")).priority >
      (call_gemini_categorize "Send the email" none none).priority :=
  ⟨by decide,
    energy_match_strictly_raises_priority "Send the email" none "low" (by decide)⟩

/-- Claim C5: on the empty string, and on any whitespace-only text, the
heuristic returns category "other", urgency 1, energy requirement "medium",
priority 50, no due hint, and the fixed three-item tips list. -/
theorem heuristic_default_on_blank_text (s : String)
    (h : s = "" ∨ ∀ c ∈ s.data, c.isWhitespace = true) :
    call_gemini_categorize s none none = ⟨"other", 1, "medium", 50, fixedTips, none⟩ := by
  rcases h with rfl | h
  · rfl
  · have hws := pyLower_ws s h
    have hA : anyIn adminKeys (pyLower s) = false := anyIn_ws_false _ _ hws (by decide)
    have hD : anyIn deepKeys (pyLower s) = false := anyIn_ws_false _ _ hws (by decide)
    have hC : anyIn creativeKeys (pyLower s) = false := anyIn_ws_false _ _ hws (by decide)
    have hS : anyIn socialKeys (pyLower s) = false := anyIn_ws_false _ _ hws (by decide)
    have hU : anyIn urgentKeys (pyLower s) = false := anyIn_ws_false _ _ hws (by decide)
    have hH : anyIn highEnergyKeys (pyLower s) = false := anyIn_ws_false _ _ hws (by decide)
    have hL : anyIn lowEnergyKeys (pyLower s) = false := anyIn_ws_false _ _ hws (by decide)
    have hTod : pyIn "today" (pyLower s) = false := pyIn_ws_false _ _ hws (by decide)
    have hTom : pyIn "tomorrow" (pyLower s) = false := pyIn_ws_false _ _ hws (by decide)
    unfold call_gemini_categorize
    simp [categoryOf, urgencyOf, energyReqOf, baseScore, dueOf,
      hA, hD, hC, hS, hU, hH, hL, hTod, hTom]

/-- Witness for C5: the empty-string case, evaluated concretely. -/
theorem heuristic_default_on_blank_text_witness :
    ("" = "" ∨ ∀ c ∈ ("" : String).data, c.isWhitespace = true) ∧
    call_gemini_categorize "" none none = ⟨"other", 1, "medium", 50, fixedTips, none⟩ :=
  ⟨Or.inl rfl, heuristic_default_on_blank_text "" (Or.inl rfl)⟩

/-- Claim C6: on "Call mom tomorrow" with self-reported energy "low" (for any
mood), the heuristic returns category "admin", urgency 2, energy requirement
"medium", priority 55, and due hint "tomorrow". -/
theorem heuristic_call_mom_tomorrow (mood : Option String) :
    call_gemini_categorize "Call mom tomorrow" mood (some "low") =
      ⟨"admin", 2, "medium", 55, fixedTips, some "tomorrow"⟩ := rfl

/-- Claim C7: category assignment is resolved by the first satisfied rule in
the fixed order admin → deep → creative → social → other; in particular any
text matching the admin keyword set is categorized "admin" regardless of what
other keyword sets it also matches. -/
theorem category_first_rule_wins (text : String) (mood energy : Option String) :
    (anyIn adminKeys (pyLower text) = true →
      (call_gemini_categorize text mood energy).category = "admin") ∧
    (anyIn adminKeys (pyLower text) = false → anyIn deepKeys (pyLower text) = true →
      (call_gemini_categorize text mood energy).category = "deep") ∧
    (anyIn adminKeys (pyLower text) = false → anyIn deepKeys (pyLower text) = false →
      anyIn creativeKeys (pyLower text) = true →
      (call_gemini_categorize text mood energy).category = "creative") ∧
    (anyIn adminKeys (pyLower text) = false → anyIn deepKeys (pyLower text) = false →
      anyIn creativeKeys (pyLower text) = false → anyIn socialKeys (pyLower text) = true →
      (call_gemini_categorize text mood energy).category = "social") ∧
    (anyIn adminKeys (pyLower text) = false → anyIn deepKeys (pyLower text) = false →
      anyIn creativeKeys (pyLower text) = false → anyIn socialKeys (pyLower text) = false →
      (call_gemini_categorize text mood energy).category = "other") := by
  have hc : (call_gemini_categorize text mood energy).category
      = categoryOf (pyLower text) := rfl
  rw [hc]
  refine ⟨?_, ?_, ?_, ?_, ?_⟩ <;> intros <;> simp [categoryOf, *]

/-- Witness for C7: "email meet" matches both the admin and the social keyword
sets and is categorized "admin". -/
theorem category_first_rule_wins_witness :
    anyIn adminKeys (pyLower "email meet") = true ∧
    anyIn socialKeys (pyLower "email meet") = true ∧
    (call_gemini_categorize "email meet" none none).category = "admin" :=
  ⟨by decide, by decide, (category_first_rule_wins "email meet" none none).1 (by decide)⟩

/-- Counterexample to claim C8 as stated: when the energy query parameter is
the empty string, `list_tasks` returns every record (`if energy:` treats ""
like None), not the records whose `energy` exactly matches the parameter —
here the store's single record has energy "medium", does not match the ""
filter, yet is returned. -/
theorem list_tasks_empty_energy_param_counterexample :
    list_tasks [r0] (some "") = [r0] ∧ r0.energy = some "medium" ∧
    List.filter (fun d => d.energy == some "") [r0] = [] := by decide

/-- Claim C8, amended: `GET /api/tasks` returns exactly (up to order) the
stored records whose `energy` exactly matches the parameter when a non-empty
parameter is given — an empty-string parameter is treated like an absent one,
returning all records — sorted by priority descending with an absent priority
treated as 0 (`taskSortKey`). -/
theorem list_tasks_filter_sort_amended (store : List TaskRec) (energy : Option String) :
    List.Perm (list_tasks store energy) (selectedTasks store energy) ∧
    List.Pairwise (fun a b => taskSortKey b ≤ taskSortKey a) (list_tasks store energy) := by
  constructor
  · unfold list_tasks selectedTasks
    rcases energy with _ | e
    · exact sortByKeyDesc_perm _ _
    · dsimp only
      split_ifs with he
      · exact sortByKeyDesc_perm _ _
      · exact sortByKeyDesc_perm _ _
  · exact sortByKeyDesc_pairwise _ _

/-- Claim C9: when the categorizer call raises during `POST /api/tasks`, the
request fails with detail `"AI error: "` followed by at most the first 100
characters of the exception text, and the store is unchanged — no task
document is created. -/
theorem create_task_error_truncated_no_write (store : List TaskRec) (inp : TaskInput)
    (e : String) :
    create_task store inp (Except.error e) =
      (store, Except.error ("AI error: " ++ strTake 100 e)) ∧
    (strTake 100 e).length ≤ 100 := by
  refine ⟨rfl, ?_⟩
  show (e.data.take 100).length ≤ 100
  rw [List.length_take]
  omega

/-- Claim C10: the heuristic's priority score always lies in [50, 70]
(base 50, at most +10 for urgency and +10 for the energy match), so the
clamp to [0, 100] never alters the computed value. -/
theorem heuristic_priority_unclamped_50_70 (text : String) (mood energy : Option String) :
    (call_gemini_categorize text mood energy).priority = baseScore (pyLower text) energy ∧
    50 ≤ baseScore (pyLower text) energy ∧ baseScore (pyLower text) energy ≤ 70 := by
  obtain ⟨h1, h2⟩ := baseScore_bounds (pyLower text) energy
  refine ⟨?_, h1, h2⟩
  rw [priority_proj, clamp_id _ (by omega) (by omega)]
